import Mathlib

/-!
Shallow embedding of the HighlightTracker engagement engine
(src/highlight-tracker.js).  The repository ships two variants of the
class in the same file: a first, interval-driven variant (referred to as
V1 below: plain records with a `lastViewTimestamp`, `checkVisibility`
interval tick, flushing `stopTracking`, normalizing `exportData`), and a
second, EventEmitter-based variant (referred to as V2: records carrying
`visibleRatio` and `weightedTime`, animation-frame batching, tab
visibility handling, schema-validated options).

Times and ratios are modelled as rationals; element handles are `Nat`
identifiers; the per-element `WeakMap` of engagement records is an
association list keyed by identifier.  `Option ℚ` models a JS field that
may hold `null`/`undefined`; JS truthiness of such a numeric field
(`if (data.lastUpdate)`) is `otruthy` (zero is falsy).
-/

namespace HT

/-- JS truthiness of a nullable numeric field: `null`/`undefined` and `0`
are falsy, every other number is truthy. -/
def otruthy : Option ℚ → Bool
  | none => false
  | some q => decide (q ≠ 0)

/-- V2 engagement record, from `initializeEngagementData`:
`visibleRatio`, `timeSpent`, `weightedTime`, `lastUpdate`, `inView`. -/
structure RecordV2 where
  visibleRatio : ℚ
  timeSpent : ℚ
  weightedTime : ℚ
  lastUpdate : Option ℚ
  inView : Bool
deriving DecidableEq, Repr

/-- The freshly created record of `initializeEngagementData`. -/
def initRecord : RecordV2 :=
  { visibleRatio := 0, timeSpent := 0, weightedTime := 0
  , lastUpdate := none, inView := false }

/-- The numeric configuration options the V2 engine reads during
tracking (`this.options`). -/
structure Options where
  minTimeThreshold : ℚ
  samplingRate : ℚ
  visibilityThreshold : ℚ
deriving DecidableEq, Repr

/-- The part of the V2 engine state (`initializeState` plus the tracked
set) that the accounting logic reads and writes.  `lastProcessedIndex`
is `Option Nat`: `none` models the JS value `NaN` (the index becomes
`NaN` once a `NaN` batch size is added to it, see `processBatch`).
`lastFrameTime` is deliberately absent: the source reads
`this.lastFrameTime` in `trackingFrame` but never assigns it anywhere,
so that read always yields `undefined`. -/
structure TrackerState where
  opts : Options
  paragraphs : List Nat
  records : List (Nat × RecordV2)
  tabVisible : Bool
  isTracking : Bool
  trackingStartTime : ℚ
  lastProcessedIndex : Option Nat
  maxEngagement : ℚ
deriving DecidableEq, Repr

/-- Engine state right after `init` on a container whose paragraphs got
the identifiers `ids` (fresh records, `tabVisible` initially true,
`isTracking` false, `lastProcessedIndex = 0`, `maxEngagement = 0`). -/
def initState (opts : Options) (ids : List Nat) : TrackerState :=
  { opts := opts
  , paragraphs := ids
  , records := ids.map (fun i => (i, initRecord))
  , tabVisible := true
  , isTracking := false
  , trackingStartTime := 0
  , lastProcessedIndex := some 0
  , maxEngagement := 0 }

/-- One `IntersectionObserverEntry` as the V2 handler reads it:
target identifier, `intersectionRatio`, `isIntersecting`. -/
structure IEntry where
  id : Nat
  ratio : ℚ
  isIntersecting : Bool
deriving DecidableEq, Repr

/-- Per-record part of V2 `handleIntersection` for one entry, together
with the `maxEngagement` update: store the reported ratio and
`isIntersecting`, then, when `lastUpdate` is truthy and the record is in
view while tracking, credit `now - lastUpdate` to `timeSpent` and the
ratio-weighted delta to `weightedTime`, and raise `maxEngagement` if
exceeded; `lastUpdate` is re-stamped to `now` in every case. -/
def updateRecM (tracking : Bool) (maxE : ℚ) (e : IEntry) (now : ℚ)
    (d : RecordV2) : RecordV2 × ℚ :=
  let d1 : RecordV2 := { d with visibleRatio := e.ratio, inView := e.isIntersecting }
  match d1.lastUpdate with
  | none => ({ d1 with lastUpdate := some now }, maxE)
  | some u =>
    if u = 0 then ({ d1 with lastUpdate := some now }, maxE)
    else if d1.inView && tracking then
      let ts := d1.timeSpent + (now - u)
      ({ d1 with timeSpent := ts
               , weightedTime := d1.weightedTime + (now - u) * d1.visibleRatio
               , lastUpdate := some now }
      , if maxE < ts then ts else maxE)
    else ({ d1 with lastUpdate := some now }, maxE)

/-- Apply one intersection entry to the engine state (the body of the
`entries.forEach` in V2 `handleIntersection`): entries whose target has
no record are skipped. -/
def applyEntry (s : TrackerState) (e : IEntry) (now : ℚ) : TrackerState :=
  match List.lookup e.id s.records with
  | none => s
  | some d =>
    { s with
      records := s.records.map (fun kv =>
        if kv.1 = e.id then (kv.1, (updateRecM s.isTracking s.maxEngagement e now kv.2).1) else kv)
    , maxEngagement := (updateRecM s.isTracking s.maxEngagement e now d).2 }

/-- V2 `handleIntersection`: ignored entirely while the tab is hidden
(`if (!this.tabVisible) return`), otherwise each entry of the batch is
applied in delivery order at the one timestamp `now`. -/
def handleIntersection (s : TrackerState) (entries : List IEntry) (now : ℚ) : TrackerState :=
  if s.tabVisible = false then s
  else entries.foldl (fun acc e => applyEntry acc e now) s

/-- The `paragraphs.forEach` loop shared by V2 `startTracking` and
`handleVisibilityChange`: stamp `lastUpdate := now` on the record of
every tracked paragraph. -/
def stampAll (recs : List (Nat × RecordV2)) (paras : List Nat) (now : ℚ) :
    List (Nat × RecordV2) :=
  paras.foldl
    (fun acc pid => acc.map (fun kv =>
      if kv.1 = pid then (kv.1, { kv.2 with lastUpdate := some now }) else kv))
    recs

/-- V2 `handleVisibilityChange`: record the new tab visibility; on
regaining the foreground, re-stamp every tracked record so the hidden
gap is not later credited. -/
def handleVisibilityChange (s : TrackerState) (visible : Bool) (now : ℚ) : TrackerState :=
  let s1 := { s with tabVisible := visible }
  if visible then { s1 with records := stampAll s1.records s1.paragraphs now }
  else s1

/-- Per-record part of V2 `processBatch` with the `maxEngagement`
update: when the stored ratio reaches the threshold and `lastUpdate` is
truthy, credit the delta (weighted into `weightedTime`); `lastUpdate` is
re-stamped to `now` in every case. -/
def batchUpdateRec (thr maxE now : ℚ) (d : RecordV2) : RecordV2 × ℚ :=
  match d.lastUpdate with
  | none => ({ d with lastUpdate := some now }, maxE)
  | some u =>
    if u = 0 then ({ d with lastUpdate := some now }, maxE)
    else if thr ≤ d.visibleRatio then
      let ts := d.timeSpent + (now - u)
      ({ d with timeSpent := ts
              , weightedTime := d.weightedTime + (now - u) * d.visibleRatio
              , lastUpdate := some now }
      , if maxE < ts then ts else maxE)
    else ({ d with lastUpdate := some now }, maxE)

/-- One iteration of the V2 `processBatch` loop at absolute index `idx`
(`paragraphs[index]`, `engagementData.get`, `if (!data) continue`). -/
def processIdx (thr now : ℚ) (idx : Nat)
    (acc : List Nat × List (Nat × RecordV2) × ℚ) :
    List Nat × List (Nat × RecordV2) × ℚ :=
  match acc.1.get? idx with
  | none => acc
  | some pid =>
    match List.lookup pid acc.2.1 with
    | none => acc
    | some d =>
      ( acc.1
      , acc.2.1.map (fun kv =>
          if kv.1 = pid then (kv.1, (batchUpdateRec thr acc.2.2 now kv.2).1) else kv)
      , (batchUpdateRec thr acc.2.2 now d).2 )

/-- The `for (let i = 0; i < batchSize; i++)` loop of V2 `processBatch`,
iterating ascending `i`, always indexing `(start + i) % length`. -/
def processLoop (thr now : ℚ) (start n : Nat) :
    Nat → Nat → List Nat × List (Nat × RecordV2) × ℚ →
    List Nat × List (Nat × RecordV2) × ℚ
  | _, 0, acc => acc
  | i, k + 1, acc => processLoop thr now start n (i + 1) k (processIdx thr now ((start + i) % n) acc)

/-- V2 `processBatch`.  `batchSize : Option Nat` models the JS number
passed in: `some k` is an ordinary count, `none` is `NaN` (the only
value the source ever passes, see `trackingFrame`).  A `NaN` batch size
makes the loop guard `i < batchSize` false immediately, and
`lastProcessedIndex = (lastProcessedIndex + NaN) % length` stores `NaN`.
With a numeric batch size but `lastProcessedIndex = NaN`, every index
`(NaN + i) % length` is `NaN`, `paragraphs[NaN]` is `undefined`, and the
`if (!data) continue` guard skips every iteration while
`lastProcessedIndex` stays `NaN`; likewise `% 0` on an empty tracked set
yields `NaN`. -/
def processBatch (s : TrackerState) (batchSize : Option Nat) (now : ℚ) : TrackerState :=
  match batchSize with
  | none => { s with lastProcessedIndex := none }
  | some k =>
    match s.lastProcessedIndex with
    | none => s
    | some start =>
      if s.paragraphs.length = 0 then { s with lastProcessedIndex := none }
      else
        let r := processLoop s.opts.visibilityThreshold now start s.paragraphs.length 0 k
          (s.paragraphs, s.records, s.maxEngagement)
        { s with records := r.2.1, maxEngagement := r.2.2
               , lastProcessedIndex := some ((start + k) % s.paragraphs.length) }

/-- V2 `trackingFrame` (scheduler re-arm aside): skip entirely unless
tracking and foregrounded; otherwise compute
`batchSize = Math.min(Math.floor(5 * (16 / (performance.now() - this.lastFrameTime))), length)`.
`this.lastFrameTime` is never assigned anywhere in the source, so the
subtraction is `NaN`, and `NaN` propagates through `/`, `*`,
`Math.floor` and `Math.min`: the batch size is always `NaN` (`none`). -/
def trackingFrame (s : TrackerState) (now : ℚ) : TrackerState :=
  if s.isTracking = false ∨ s.tabVisible = false then s
  else processBatch s none now

/-- V2 `startTracking`: no-op while already tracking; otherwise set
`isTracking`, record the start instant, stamp every record's
`lastUpdate` to it (no retroactive credit), and run one synchronous
`trackingFrame`. -/
def startTracking (s : TrackerState) (now : ℚ) : TrackerState :=
  if s.isTracking then s
  else
    let s1 := { s with isTracking := true, trackingStartTime := now }
    let s2 := { s1 with records := stampAll s1.records s1.paragraphs now }
    trackingFrame s2 now

/-- V2 `stopTracking`: no-op while not tracking; otherwise it only
clears `isTracking` (and cancels the animation frame) — the records are
not touched: no flush, `inView` and `lastUpdate` keep their values. -/
def stopTracking (s : TrackerState) : TrackerState :=
  if s.isTracking = false then s
  else { s with isTracking := false }

/-- Per-record part of the "final time update" in V2 `exportData`: when
`lastUpdate` is truthy and tracking is on, and the stored ratio reaches
the threshold, the source adds `delta * visibleRatio` to **both**
`timeSpent` and `weightedTime` (line 1008 multiplies the `timeSpent`
increment by the ratio as well), and it does not re-stamp
`lastUpdate`. -/
def exportUpdateRec (tracking : Bool) (thr now : ℚ) (d : RecordV2) : RecordV2 :=
  match d.lastUpdate with
  | none => d
  | some u =>
    if u = 0 then d
    else if tracking && decide (thr ≤ d.visibleRatio) then
      { d with timeSpent := d.timeSpent + (now - u) * d.visibleRatio
             , weightedTime := d.weightedTime + (now - u) * d.visibleRatio }
    else d

/-- `Math.round`: round half away from zero upward (floor of `q + 1/2`). -/
def jsRound (q : ℚ) : ℤ := Int.floor (q + 1 / 2)

/-- One exported entry of V2 `exportData`. -/
structure ExportEntryV2 where
  rawTime : ℤ
  adjustedTime : ℤ
  weightedTime : ℤ
  visibleRatio : ℚ
deriving DecidableEq, Repr

/-- Build the exported entry for one record (after its final update):
`adjustedTime = max(timeSpent - minTimeThreshold, 0)`, all three times
rounded. -/
def mkExportEntry (minT : ℚ) (d : RecordV2) : ExportEntryV2 :=
  { rawTime := jsRound d.timeSpent
  , adjustedTime := jsRound (max (d.timeSpent - minT) 0)
  , weightedTime := jsRound d.weightedTime
  , visibleRatio := d.visibleRatio }

/-- The body of the `paragraphs.forEach` in V2 `exportData` for one
paragraph identifier: paragraphs without a record are skipped. -/
def exportStep (tracking : Bool) (thr minT now : ℚ)
    (acc : List (Nat × RecordV2) × List (Nat × ExportEntryV2)) (pid : Nat) :
    List (Nat × RecordV2) × List (Nat × ExportEntryV2) :=
  match List.lookup pid acc.1 with
  | none => acc
  | some d =>
    let d1 := exportUpdateRec tracking thr now d
    ( acc.1.map (fun kv =>
        if kv.1 = pid then (kv.1, exportUpdateRec tracking thr now kv.2) else kv)
    , acc.2 ++ [(pid, mkExportEntry minT d1)] )

/-- V2 `exportData`: walks the tracked paragraphs in order, performs the
final time update on each record (a state mutation), and returns the
exported entries keyed by identifier. -/
def exportDataV2 (s : TrackerState) (now : ℚ) :
    TrackerState × List (Nat × ExportEntryV2) :=
  let r := s.paragraphs.foldl
    (exportStep s.isTracking s.opts.visibilityThreshold s.opts.minTimeThreshold now)
    (s.records, [])
  ({ s with records := r.1 }, r.2)

/-- The field names of one entry of the object returned by V2
`exportData` (source lines 1019-1029). -/
def exportV2Fields : List String :=
  ["rawTime", "adjustedTime", "weightedTime", "text", "visibleRatio", "element"]

/-- V2 `handleDOMChanges`, added-node case: a fresh identifier is
pushed onto the tracked set with an empty record whose `lastUpdate` is
the current instant when tracking is on, `null` otherwise. -/
def domAdd (s : TrackerState) (id : Nat) (now : ℚ) : TrackerState :=
  { s with paragraphs := s.paragraphs ++ [id]
         , records := s.records ++
             [(id, { visibleRatio := 0, timeSpent := 0, weightedTime := 0
                   , lastUpdate := if s.isTracking then some now else none
                   , inView := false })] }

/-- V2 `handleDOMChanges`, removed-node case: when the removed node is
tracked (`findIndex` succeeds), it is spliced out of `paragraphs` and
its record is deleted from the map.  `maxEngagement` is not touched. -/
def domRemove (s : TrackerState) (id : Nat) : TrackerState :=
  if s.paragraphs.contains id then
    { s with paragraphs := s.paragraphs.erase id
           , records := s.records.eraseP (fun kv => kv.1 == id) }
  else s

/-- The heatmap intensity computed for one tracked element by
`_updateHeatmap` (source lines 897-900): `timeSpent / maxEngagement`
when `maxEngagement > 0`, else `0`. -/
def heatmapIntensity (s : TrackerState) (id : Nat) : ℚ :=
  match List.lookup id s.records with
  | none => 0
  | some d => if 0 < s.maxEngagement then d.timeSpent / s.maxEngagement else 0

/-! ## The V1 variant -/

/-- V1 engagement record as created in `init`: `timeSpent`, `inView`,
`lastViewTimestamp`, `index` (it has no visibility ratio and no weighted
time). -/
structure RecordV1 where
  timeSpent : ℚ
  inView : Bool
  lastViewTimestamp : Option ℚ
  index : Nat
deriving DecidableEq, Repr

/-- Per-record body of V1 `checkVisibility`: for a record in view with a
truthy `lastViewTimestamp`, credit the elapsed time and re-stamp the
timestamp to `now`. -/
def checkVisRec (now : ℚ) (d : RecordV1) : RecordV1 :=
  match d.lastViewTimestamp with
  | none => d
  | some t =>
    if d.inView && decide (t ≠ 0) then
      { d with timeSpent := d.timeSpent + (now - t), lastViewTimestamp := some now }
    else d

/-- V1 `checkVisibility` over the whole record store. -/
def checkVisibility (recs : List (String × RecordV1)) (now : ℚ) :
    List (String × RecordV1) :=
  recs.map (fun kv => (kv.1, checkVisRec now kv.2))

/-- Per-record body of the final flush in V1 `stopTracking`: a record in
view with a truthy `lastViewTimestamp` is credited `now - timestamp`,
its timestamp cleared and `inView` forced false. -/
def stopFlushRec (now : ℚ) (d : RecordV1) : RecordV1 :=
  match d.lastViewTimestamp with
  | none => d
  | some t =>
    if d.inView && decide (t ≠ 0) then
      { d with timeSpent := d.timeSpent + (now - t)
             , lastViewTimestamp := none, inView := false }
    else d

/-- V1 tracker state: the record store plus the `isTracking` flag. -/
structure V1State where
  recs : List (String × RecordV1)
  isTracking : Bool
deriving DecidableEq, Repr

/-- V1 `stopTracking`: no-op while not tracking; otherwise clear the
flag (and the interval) and flush every record still in view. -/
def stopTrackingV1 (s : V1State) (now : ℚ) : V1State :=
  if s.isTracking = false then s
  else { isTracking := false
       , recs := s.recs.map (fun kv => (kv.1, stopFlushRec now kv.2)) }

/-- `Math.max` of a spread list (`Math.max(...values)`); `none` models
the `-Infinity` of an empty argument list. -/
def jsMaxList : List ℚ → Option ℚ
  | [] => none
  | q :: rest =>
    match jsMaxList rest with
    | none => some q
    | some m => some (max q m)

/-- One exported entry of V1 `exportData`. -/
structure ExportEntryV1 where
  index : Nat
  timeSpent : ℚ
  timeSpentSeconds : ℤ
  normalizedEngagement : ℚ
deriving DecidableEq, Repr

/-- First pass of V1 `exportData`: build an entry per record with
`normalizedEngagement = 0`. -/
def exportBaseV1 (recs : List (String × RecordV1)) : List (String × ExportEntryV1) :=
  recs.map (fun kv =>
    (kv.1, { index := kv.2.index
           , timeSpent := kv.2.timeSpent
           , timeSpentSeconds := jsRound (kv.2.timeSpent / 1000)
           , normalizedEngagement := 0 : ExportEntryV1 }))

/-- V1 `exportData`: after the first pass, take the maximum `timeSpent`
over the built entries, and when it is positive set every entry's
`normalizedEngagement` to `timeSpent / maxTime`. -/
def exportDataV1 (recs : List (String × RecordV1)) : List (String × ExportEntryV1) :=
  match jsMaxList ((exportBaseV1 recs).map (fun kv => kv.2.timeSpent)) with
  | none => exportBaseV1 recs
  | some m =>
    if 0 < m then
      (exportBaseV1 recs).map
        (fun kv => (kv.1, { kv.2 with normalizedEngagement := kv.2.timeSpent / m }))
    else exportBaseV1 recs

/-- The field names of one entry of the object returned by V1
`exportData` (source lines 276-282). -/
def exportV1Fields : List String :=
  ["index", "timeSpent", "timeSpentSeconds", "text", "normalizedEngagement"]

/-! ## Option validation (V2 constructor) -/

/-- A JavaScript value as the option validator sees it. -/
inductive JSValue where
  | undef
  | null
  | num (q : ℚ)
  | str (s : String)
  | obj (fields : List (String × JSValue))
  | boolean (b : Bool)

/-- The `value !== null` discriminator. -/
def isNullJS : JSValue → Bool
  | .null => true
  | _ => false

/-- `typeof` (note `typeof null` is the string "object"). -/
def typeofJS : JSValue → String
  | .undef => "undefined"
  | .null => "object"
  | .num _ => "number"
  | .str _ => "string"
  | .obj _ => "object"
  | .boolean _ => "boolean"

/-- JS truthiness: `undefined`, `null`, `0`, the empty string and
`false` are falsy. -/
def truthyJS : JSValue → Bool
  | .undef => false
  | .null => false
  | .num q => decide (q ≠ 0)
  | .str s => decide (s ≠ "")
  | .obj _ => true
  | .boolean b => b

/-- The nullish values collapsed by `value ?? config.default`. -/
def nullishJS : JSValue → Bool
  | .undef => true
  | .null => true
  | _ => false

/-- The field list of an object value. -/
def objFieldsOf : JSValue → List (String × JSValue)
  | .obj fs => fs
  | _ => []

/-- Object spread `\x7b ...dflt, ...ov \x7d`: the default fields in
order, overridden where the override has the key, then the override-only
fields. -/
def mergeFields (dflt ov : List (String × JSValue)) : List (String × JSValue) :=
  (dflt.map (fun kv =>
    match List.lookup kv.1 ov with
    | some v => (kv.1, v)
    | none => kv))
  ++ ov.filter (fun kv => !(dflt.map Prod.fst).contains kv.1)

/-- The distinct errors `validateOptions` reports: a `TypeError` naming
the key and the expected type, or a `RangeError` naming the key and the
violated bound. -/
inductive ConfigError where
  | typeErr (key expected : String)
  | rangeLow (key : String) (bound : ℚ)
  | rangeHigh (key : String) (bound : ℚ)
deriving DecidableEq, Repr

/-- One entry of the validation schema (`type`, `min`, `max`,
`default`). -/
structure SchemaConfig where
  jstype : String
  minB : Option ℚ
  maxB : Option ℚ
  dflt : JSValue

/-- The `value < config.min` comparison.  When the check is active the
value is numeric (string- and object-typed schema entries carry no
bounds, and a mistyped value for a number-typed entry has already been
rejected), so only the numeric case can fire. -/
def minViol : Option ℚ → JSValue → Bool
  | none, _ => false
  | some lo, JSValue.num q => decide (q < lo)
  | some _, _ => false

/-- The `value > config.max` comparison (see `minViol`). -/
def maxViol : Option ℚ → JSValue → Bool
  | none, _ => false
  | some hi, JSValue.num q => decide (hi < q)
  | some _, _ => false

/-- `validateOptions` for a single schema key, mirroring the source
order: nested-object handling (a truthy non-object where an object is
expected is a `TypeError`; a truthy object is merged over the default),
nullish defaulting, type validation for non-null values, then the `min`
and `max` range checks. -/
def validateKey (key : String) (cfg : SchemaConfig) (v : JSValue) :
    Except ConfigError JSValue :=
  let pre : Except ConfigError JSValue :=
    if cfg.jstype == "object" && truthyJS v then
      match v with
      | JSValue.obj fs => Except.ok (JSValue.obj (mergeFields (objFieldsOf cfg.dflt) fs))
      | _ => Except.error (ConfigError.typeErr key "object")
    else Except.ok (if nullishJS v then cfg.dflt else v)
  match pre with
  | Except.error e => Except.error e
  | Except.ok value =>
    if !isNullJS value && cfg.jstype != "object" && typeofJS value != cfg.jstype then
      Except.error (ConfigError.typeErr key cfg.jstype)
    else if minViol cfg.minB value then
      Except.error (ConfigError.rangeLow key ((cfg.minB).getD 0))
    else if maxViol cfg.maxB value then
      Except.error (ConfigError.rangeHigh key ((cfg.maxB).getD 0))
    else Except.ok value

/-- The heatmap color defaults of the V2 schema. -/
def defaultColors : List (String × JSValue) :=
  [("low", JSValue.str "#C6E2FF"), ("medium", JSValue.str "#4F97FF"),
   ("high", JSValue.str "#0047AB")]

/-- The V2 validation schema (constructor lines 364-377). -/
def v2Schema : List (String × SchemaConfig) :=
  [ ("minTimeThreshold",
      { jstype := "number", minB := some 0, maxB := none, dflt := JSValue.num 1000 })
  , ("samplingRate",
      { jstype := "number", minB := some 10, maxB := some 1000, dflt := JSValue.num 200 })
  , ("visibilityThreshold",
      { jstype := "number", minB := some 0, maxB := some 1, dflt := JSValue.num (1 / 2) })
  , ("colors",
      { jstype := "object", minB := none, maxB := none, dflt := JSValue.obj defaultColors })
  , ("heatmapContainer",
      { jstype := "string", minB := none, maxB := none, dflt := JSValue.null }) ]

/-- V2 `validateOptions` over the whole schema: the first violation
aborts construction with its error; otherwise the validated option
object is produced. -/
def validateOptionsV2 (input : List (String × JSValue)) :
    Except ConfigError (List (String × JSValue)) :=
  v2Schema.foldl
    (fun acc kc =>
      match acc with
      | Except.error e => Except.error e
      | Except.ok opts =>
        match validateKey kc.1 kc.2 ((List.lookup kc.1 input).getD JSValue.undef) with
        | Except.error e => Except.error e
        | Except.ok value => Except.ok (opts ++ [(kc.1, value)]))
    (Except.ok [])

/-- Read a validated numeric option (validated number-typed options are
always numeric; the fallback is the schema default and is never hit on a
validated object). -/
def getNumOpt (opts : List (String × JSValue)) (key : String) (fallback : ℚ) : ℚ :=
  match List.lookup key opts with
  | some (JSValue.num q) => q
  | _ => fallback

/-- The numeric options the engine keeps from a validated option
object. -/
def extractOptions (opts : List (String × JSValue)) : Options :=
  { minTimeThreshold := getNumOpt opts "minTimeThreshold" 1000
  , samplingRate := getNumOpt opts "samplingRate" 200
  , visibilityThreshold := getNumOpt opts "visibilityThreshold" (1 / 2) }

/-- The V2 constructor: validation runs before any state is
initialized, so a validation error means no engine state ever exists
(`Except.error` carries the thrown error). -/
def newHighlightTrackerV2 (input : List (String × JSValue)) (ids : List Nat) :
    Except ConfigError TrackerState :=
  match validateOptionsV2 input with
  | Except.error e => Except.error e
  | Except.ok opts => Except.ok (initState (extractOptions opts) ids)

/-- The V1 constructor guard (source lines 3-9): it throws only when
`options.minTimeThreshold` is truthy and negative, or
`options.samplingRate` is truthy and negative. -/
def constructorV1Throws (minTimeThreshold samplingRate : Option ℚ) : Bool :=
  (otruthy minTimeThreshold && decide ((minTimeThreshold.getD 0) < 0))
  || (otruthy samplingRate && decide ((samplingRate.getD 0) < 0))

/-! ## Teardown (V2 `destroy`) -/

/-- The teardown actions in the `try` block of V2 `destroy`, in source
order.  They act on external resources (observers, listeners, DOM,
timeouts, pending frames) outside the embedded accounting state; any of
them may raise. -/
def destroySteps : List String :=
  [ "stopTracking", "disconnectObserver", "disconnectResizeObserver"
  , "disconnectMutationObserver", "removeVisibilityListener"
  , "removeUnloadListener", "removeScrollListener", "removeHeatmapDom"
  , "clearResizeTimeout", "clearReferences", "cancelHeatmapUpdate" ]

/-- Run the teardown actions in order; `fault` says which action (if
any) raises which error, and the first raise aborts the sequence. -/
def runTeardown (fault : String → Option String) : List String → Except String Unit
  | [] => Except.ok ()
  | stp :: rest =>
    match fault stp with
    | some e => Except.error e
    | none => runTeardown fault rest

/-- V2 `destroy`: the whole teardown runs inside one `try`; on success
the `destroyed` event is emitted, on any raise the `catch` emits the
`error` event instead.  The result is the list of emitted events and the
exception propagated to the caller (event emission itself is modelled as
an append to the event list). -/
def destroy (fault : String → Option String) : List String × Option String :=
  match runTeardown fault destroySteps with
  | Except.ok _ => (["destroyed"], none)
  | Except.error _ => (["error"], none)

/-! ## Reachable states of the V2 engine -/

/-- One externally triggered step of the V2 engine: an intersection
batch, a tab visibility transition, start/stop, an animation-frame tick,
an export, or a DOM mutation. -/
inductive Event where
  | intersect (entries : List IEntry) (now : ℚ)
  | visChange (visible : Bool) (now : ℚ)
  | start (now : ℚ)
  | stop
  | frame (now : ℚ)
  | exportD (now : ℚ)
  | domAdd (id : Nat) (now : ℚ)
  | domRemove (id : Nat)

/-- Interpret one event by the corresponding V2 entry point. -/
def step (s : TrackerState) : Event → TrackerState
  | .intersect entries now => handleIntersection s entries now
  | .visChange v now => handleVisibilityChange s v now
  | .start now => startTracking s now
  | .stop => stopTracking s
  | .frame now => trackingFrame s now
  | .exportD now => (exportDataV2 s now).1
  | .domAdd id now => domAdd s id now
  | .domRemove id => domRemove s id

/-- Run a sequence of events. -/
def run (s : TrackerState) : List Event → TrackerState
  | [] => s
  | e :: es => run (step s e) es

/-- A well-formed intersection entry: the intersection ratio the
observer reports lies in `[0, 1]`. -/
def entryOK (e : IEntry) : Bool := decide (0 ≤ e.ratio) && decide (e.ratio ≤ 1)

/-- Validity of one event against the current clock bound `t`: its
timestamp does not precede `t` (the host clock is monotone) and reported
ratios are in range. -/
def eventOK (t : ℚ) : Event → Bool
  | .intersect entries now => decide (t ≤ now) && entries.all entryOK
  | .visChange _ now => decide (t ≤ now)
  | .start now => decide (t ≤ now)
  | .stop => true
  | .frame now => decide (t ≤ now)
  | .exportD now => decide (t ≤ now)
  | .domAdd _ now => decide (t ≤ now)
  | .domRemove _ => true

/-- The clock bound after an event. -/
def nextT (t : ℚ) : Event → ℚ
  | .intersect _ now => now
  | .visChange _ now => now
  | .start now => now
  | .stop => t
  | .frame now => now
  | .exportD now => now
  | .domAdd _ now => now
  | .domRemove _ => t

/-- Validity of a whole event trace starting at clock bound `t`. -/
def traceOK (t : ℚ) : List Event → Bool
  | [] => true
  | e :: es => eventOK t e && traceOK (nextT t e) es

/-- The clock bound after a whole trace. -/
def finalT (t : ℚ) : List Event → ℚ
  | [] => t
  | e :: es => finalT (nextT t e) es

/-! ## Derived observations and well-formedness -/

/-- The accumulated `timeSpent` of every record, keyed by identifier. -/
def recordTimes (s : TrackerState) : List (Nat × ℚ) :=
  s.records.map (fun kv => (kv.1, kv.2.timeSpent))

/-- Pointwise form of the `stampAll` loop: a record is re-stamped
exactly when its key is a tracked paragraph. -/
def stampIf (paras : List Nat) (now : ℚ) (kv : Nat × RecordV2) : Nat × RecordV2 :=
  if paras.contains kv.1 then (kv.1, { kv.2 with lastUpdate := some now }) else kv

/-- Well-formedness of one record against the clock bound `t`: the
stored ratio is a ratio, both accumulators are nonnegative, the weighted
accumulator never exceeds the raw one, and any open interval started no
later than `t`. -/
def recWF (t : ℚ) (d : RecordV2) : Prop :=
  0 ≤ d.visibleRatio ∧ d.visibleRatio ≤ 1 ∧ 0 ≤ d.weightedTime ∧
    d.weightedTime ≤ d.timeSpent ∧ ∀ u, d.lastUpdate = some u → u ≤ t

/-- Well-formedness of a record store. -/
def recsWF (t : ℚ) (l : List (Nat × RecordV2)) : Prop :=
  ∀ kv ∈ l, recWF t kv.2

/-- Well-formedness of an engine state. -/
def stateWF (t : ℚ) (s : TrackerState) : Prop := recsWF t s.records

/-! ## Concrete states and traces used to instantiate the results -/

/-- An all-integral configuration accepted by the schema
(`visibilityThreshold = 1` lies in `[0, 1]`). -/
def intOpts : Options :=
  { minTimeThreshold := 500, samplingRate := 200, visibilityThreshold := 1 }

/-- A fully visible record with an open interval since `lu`. -/
def fullRec (lu : Option ℚ) (ts wt : ℚ) : RecordV2 :=
  { visibleRatio := 1, timeSpent := ts, weightedTime := wt
  , lastUpdate := lu, inView := true }

/-- Tab hidden since before `t = 2`, tracking on, one fully visible
record whose open interval started at `t = 2`. -/
def hiddenExportState : TrackerState :=
  { opts := intOpts, paragraphs := [0]
  , records := [(0, fullRec (some 2) 0 0)]
  , tabVisible := false, isTracking := true, trackingStartTime := 2
  , lastProcessedIndex := some 0, maxEngagement := 0 }

/-- As `hiddenExportState` but with the tab visible. -/
def exportTwiceState : TrackerState := { hiddenExportState with tabVisible := true }

/-- Tracking on, one record in view with an open interval since
`t = 5`. -/
def stopStateV2 : TrackerState :=
  { exportTwiceState with records := [(0, fullRec (some 5) 0 0)] }

/-- Tracking on, tab visible, two fully visible records with open
intervals — the state in which the frame-batched accrual would have work
to do. -/
def frameState : TrackerState :=
  { opts := intOpts, paragraphs := [0, 1]
  , records := [(0, fullRec (some 2) 0 0), (1, fullRec (some 2) 0 0)]
  , tabVisible := true, isTracking := true, trackingStartTime := 2
  , lastProcessedIndex := some 0, maxEngagement := 0 }

/-- Two tracked records; record `0` holds the running maximum `10`. -/
def removeState : TrackerState :=
  { opts := intOpts, paragraphs := [0, 1]
  , records := [(0, fullRec (some 12) 10 8), (1, fullRec (some 12) 2 2)]
  , tabVisible := true, isTracking := true, trackingStartTime := 2
  , lastProcessedIndex := some 0, maxEngagement := 10 }

/-- Tab hidden, one fresh record (ratio `0`). -/
def hiddenReportState : TrackerState :=
  { opts := intOpts, paragraphs := [0]
  , records := [(0, initRecord)]
  , tabVisible := false, isTracking := true, trackingStartTime := 2
  , lastProcessedIndex := some 0, maxEngagement := 0 }

/-- A full-visibility intersection report for element `0`. -/
def reportEntry : IEntry := { id := 0, ratio := 1, isIntersecting := true }

/-- As `hiddenReportState` but with the tab visible. -/
def visibleReportState : TrackerState := { hiddenReportState with tabVisible := true }

/-- A valid demonstration trace exercising every kind of event. -/
def demoTrace : List Event :=
  [ Event.start 1
  , Event.intersect [reportEntry] 2
  , Event.frame 3
  , Event.exportD 4
  , Event.visChange false 5
  , Event.visChange true 6
  , Event.domAdd 7 7
  , Event.domRemove 0
  , Event.stop ]

/-- A V1 record in view with an open interval since `t = 2`. -/
def v1Rec : RecordV1 :=
  { timeSpent := 0, inView := true, lastViewTimestamp := some 2, index := 0 }

/-- A tracking V1 engine with the single record `v1Rec`. -/
def v1StateA : V1State := { recs := [("p-0", v1Rec)], isTracking := true }

/-- Flushed V1 records matching the specification scenario: element A
viewed 1000, element B viewed 4000. -/
def v1RecsExport : List (String × RecordV1) :=
  [ ("p-0", { timeSpent := 1000, inView := false, lastViewTimestamp := none, index := 0 })
  , ("p-1", { timeSpent := 4000, inView := false, lastViewTimestamp := none, index := 1 }) ]

/-! ## Helper lemmas -/

theorem trackingFrame_records (s : TrackerState) (now : ℚ) :
    (trackingFrame s now).records = s.records := by
  unfold trackingFrame processBatch
  split <;> rfl

theorem stopTracking_records (s : TrackerState) : (stopTracking s).records = s.records := by
  unfold stopTracking
  split <;> rfl

theorem applyEntry_isTracking (s : TrackerState) (e : IEntry) (now : ℚ) :
    (applyEntry s e now).isTracking = s.isTracking := by
  unfold applyEntry
  cases List.lookup e.id s.records <;> rfl

theorem updateRecM_lastUpdate (trk : Bool) (maxE : ℚ) (e : IEntry) (now : ℚ) (d : RecordV2) :
    ((updateRecM trk maxE e now d).1).lastUpdate = some now := by
  obtain ⟨vr, ts, wt, lu, iv⟩ := d
  cases lu with
  | none => rfl
  | some u =>
    by_cases hu : u = 0
    · simp [updateRecM, hu]
    · by_cases hiv : (e.isIntersecting && trk) = true
      · simp [updateRecM, hu, hiv]
      · simp [updateRecM, hu, hiv]

theorem updateRecM_visibleRatio (trk : Bool) (maxE : ℚ) (e : IEntry) (now : ℚ) (d : RecordV2) :
    ((updateRecM trk maxE e now d).1).visibleRatio = e.ratio := by
  obtain ⟨vr, ts, wt, lu, iv⟩ := d
  cases lu with
  | none => rfl
  | some u =>
    by_cases hu : u = 0
    · simp [updateRecM, hu]
    · by_cases hiv : (e.isIntersecting && trk) = true
      · simp [updateRecM, hu, hiv]
      · simp [updateRecM, hu, hiv]

theorem updateRecM_timeSpent_not_tracking (maxE : ℚ) (e : IEntry) (now : ℚ) (d : RecordV2) :
    ((updateRecM false maxE e now d).1).timeSpent = d.timeSpent := by
  obtain ⟨vr, ts, wt, lu, iv⟩ := d
  cases lu with
  | none => rfl
  | some u =>
    by_cases hu : u = 0
    · simp [updateRecM, hu]
    · simp [updateRecM, hu]

theorem updateRecM_timeSpent_not_inView (trk : Bool) (maxE : ℚ) (e : IEntry) (now : ℚ)
    (d : RecordV2) (h : e.isIntersecting = false) :
    ((updateRecM trk maxE e now d).1).timeSpent = d.timeSpent := by
  obtain ⟨vr, ts, wt, lu, iv⟩ := d
  cases lu with
  | none => rfl
  | some u =>
    by_cases hu : u = 0
    · simp [updateRecM, hu]
    · simp [updateRecM, hu, h]

theorem batchUpdateRec_lastUpdate (thr maxE now : ℚ) (d : RecordV2) :
    ((batchUpdateRec thr maxE now d).1).lastUpdate = some now := by
  obtain ⟨vr, ts, wt, lu, iv⟩ := d
  cases lu with
  | none => rfl
  | some u =>
    by_cases hu : u = 0
    · simp [batchUpdateRec, hu]
    · by_cases hth : thr ≤ vr
      · simp [batchUpdateRec, hu, hth]
      · simp [batchUpdateRec, hu, hth]

theorem stampAll_eq_map (paras : List Nat) (recs : List (Nat × RecordV2)) (now : ℚ) :
    stampAll recs paras now = recs.map (stampIf paras now) := by
  induction paras generalizing recs with
  | nil =>
    have h1 : stampIf [] now = fun kv => kv := by
      funext kv
      simp [stampIf]
    show recs = recs.map (stampIf [] now)
    rw [h1, List.map_id']
  | cons p rest ih =>
    show stampAll
        (recs.map fun kv =>
          if kv.1 = p then (kv.1, { kv.2 with lastUpdate := some now }) else kv)
        rest now = _
    rw [ih, List.map_map]
    have hfun : (stampIf rest now ∘ fun kv : Nat × RecordV2 =>
        if kv.1 = p then (kv.1, { kv.2 with lastUpdate := some now }) else kv)
        = stampIf (p :: rest) now := by
      funext kv
      by_cases hp : kv.1 = p
      · simp [stampIf, hp]
      · simp [stampIf, hp, List.contains_cons]
    rw [hfun]

theorem lookup_map_keyed (k : Nat) (f : RecordV2 → RecordV2) (l : List (Nat × RecordV2)) :
    List.lookup k (l.map fun kv => if kv.1 = k then (kv.1, f kv.2) else kv)
      = (List.lookup k l).map f := by
  induction l with
  | nil => rfl
  | cons hd tl ih =>
    obtain ⟨k1, v1⟩ := hd
    by_cases h : k1 = k
    · subst h
      simp [List.lookup_cons, ih]
    · simp only [List.map_cons, if_neg h, List.lookup_cons]
      have hb : (k == k1) = false := by
        simp [Ne.symm h]
      simp [hb, ih]

theorem recWF_mono {t t2 : ℚ} (h : t ≤ t2) {d : RecordV2} (hd : recWF t d) : recWF t2 d := by
  obtain ⟨h1, h2, h3, h4, h5⟩ := hd
  exact ⟨h1, h2, h3, h4, fun u hu => le_trans (h5 u hu) h⟩

theorem recsWF_mono {t t2 : ℚ} (h : t ≤ t2) {l : List (Nat × RecordV2)}
    (hl : recsWF t l) : recsWF t2 l :=
  fun kv hkv => recWF_mono h (hl kv hkv)

theorem updateRecM_recWF {trk : Bool} {maxE : ℚ} {e : IEntry} {now : ℚ} {d : RecordV2}
    (hd : recWF now d) (h0 : 0 ≤ e.ratio) (h1 : e.ratio ≤ 1) :
    recWF now (updateRecM trk maxE e now d).1 := by
  obtain ⟨vr, ts, wt, lu, iv⟩ := d
  obtain ⟨hv0, hv1, hw0, hwt, hlu⟩ := hd
  cases lu with
  | none =>
    exact ⟨h0, h1, hw0, hwt, fun u hu => by simp only [updateRecM] at hu ⊢; simp at hu; simp [hu]⟩
  | some u =>
    have hun : u ≤ now := hlu u rfl
    have hδ : 0 ≤ now - u := by linarith
    by_cases hu0 : u = 0
    · have hrec : (updateRecM trk maxE e now ⟨vr, ts, wt, some u, iv⟩).1
          = ⟨e.ratio, ts, wt, some now, e.isIntersecting⟩ := by
        simp [updateRecM, hu0]
      rw [hrec]
      exact ⟨h0, h1, hw0, hwt, fun x hx => by simp at hx; simp [hx]⟩
    · by_cases hb : (e.isIntersecting && trk) = true
      · have hrec : (updateRecM trk maxE e now ⟨vr, ts, wt, some u, iv⟩).1
            = ⟨e.ratio, ts + (now - u), wt + (now - u) * e.ratio, some now,
               e.isIntersecting⟩ := by
          simp [updateRecM, hu0, hb]
        rw [hrec]
        refine ⟨h0, h1, ?_, ?_, fun x hx => by simp at hx; simp [hx]⟩
        · exact add_nonneg hw0 (mul_nonneg hδ h0)
        · exact add_le_add hwt (mul_le_of_le_one_right hδ h1)
      · have hrec : (updateRecM trk maxE e now ⟨vr, ts, wt, some u, iv⟩).1
            = ⟨e.ratio, ts, wt, some now, e.isIntersecting⟩ := by
          simp [updateRecM, hu0, hb]
        rw [hrec]
        exact ⟨h0, h1, hw0, hwt, fun x hx => by simp at hx; simp [hx]⟩

theorem applyEntry_recsWF {now : ℚ} {s : TrackerState} {e : IEntry}
    (h : recsWF now s.records) (h0 : 0 ≤ e.ratio) (h1 : e.ratio ≤ 1) :
    recsWF now (applyEntry s e now).records := by
  cases hl : List.lookup e.id s.records with
  | none => simpa [applyEntry, hl] using h
  | some d =>
    intro kv hkv
    simp only [applyEntry, hl, List.mem_map] at hkv
    obtain ⟨kv0, hkv0, rfl⟩ := hkv
    by_cases hk : kv0.1 = e.id
    · simpa [hk] using updateRecM_recWF (h kv0 hkv0) h0 h1
    · simpa [hk] using h kv0 hkv0

theorem foldl_applyEntry_recsWF {now : ℚ} :
    ∀ (entries : List IEntry) (s : TrackerState), recsWF now s.records →
      entries.all entryOK = true →
      recsWF now ((entries.foldl (fun acc e => applyEntry acc e now) s)).records := by
  intro entries
  induction entries with
  | nil => exact fun s h _ => h
  | cons e rest ih =>
    intro s h hall
    simp only [List.all_cons, Bool.and_eq_true] at hall
    have he : 0 ≤ e.ratio ∧ e.ratio ≤ 1 := by
      have h1 := hall.1
      simp only [entryOK, Bool.and_eq_true, decide_eq_true_eq] at h1
      exact h1
    exact ih _ (applyEntry_recsWF h he.1 he.2) hall.2

theorem handleIntersection_recsWF {t now : ℚ} {s : TrackerState} {entries : List IEntry}
    (h : recsWF t s.records) (ht : t ≤ now) (hall : entries.all entryOK = true) :
    recsWF now (handleIntersection s entries now).records := by
  unfold handleIntersection
  split
  · exact recsWF_mono ht h
  · exact foldl_applyEntry_recsWF entries s (recsWF_mono ht h) hall

theorem stampAll_recsWF {t now : ℚ} (ht : t ≤ now) {recs : List (Nat × RecordV2)}
    {paras : List Nat} (h : recsWF t recs) : recsWF now (stampAll recs paras now) := by
  rw [stampAll_eq_map]
  intro kv hkv
  simp only [List.mem_map] at hkv
  obtain ⟨kv0, hkv0, rfl⟩ := hkv
  unfold stampIf
  split
  · obtain ⟨h1, h2, h3, h4, _⟩ := h kv0 hkv0
    refine ⟨h1, h2, h3, h4, fun u hu => ?_⟩
    simp at hu
    simp [hu]
  · exact recWF_mono ht (h kv0 hkv0)

theorem exportUpdateRec_recWF {trk : Bool} {thr now : ℚ} {d : RecordV2}
    (hd : recWF now d) : recWF now (exportUpdateRec trk thr now d) := by
  obtain ⟨vr, ts, wt, lu, iv⟩ := d
  obtain ⟨h1, h2, h3, h4, h5⟩ := hd
  cases lu with
  | none => exact ⟨h1, h2, h3, h4, h5⟩
  | some u =>
    have hun : u ≤ now := h5 u rfl
    have hδ : 0 ≤ now - u := by linarith
    have hr : 0 ≤ (now - u) * vr := mul_nonneg hδ h1
    by_cases hu0 : u = 0
    · have hrec : exportUpdateRec trk thr now ⟨vr, ts, wt, some u, iv⟩
          = ⟨vr, ts, wt, some u, iv⟩ := by
        simp [exportUpdateRec, hu0]
      rw [hrec]
      exact ⟨h1, h2, h3, h4, h5⟩
    · by_cases hc : (trk && decide (thr ≤ vr)) = true
      · have hrec : exportUpdateRec trk thr now ⟨vr, ts, wt, some u, iv⟩
            = ⟨vr, ts + (now - u) * vr, wt + (now - u) * vr, some u, iv⟩ := by
          simp [exportUpdateRec, hu0, hc]
        rw [hrec]
        exact ⟨h1, h2, add_nonneg h3 hr, add_le_add h4 le_rfl, h5⟩
      · have hrec : exportUpdateRec trk thr now ⟨vr, ts, wt, some u, iv⟩
            = ⟨vr, ts, wt, some u, iv⟩ := by
          simp [exportUpdateRec, hu0, hc]
        rw [hrec]
        exact ⟨h1, h2, h3, h4, h5⟩

theorem exportStep_recsWF {trk : Bool} {thr minT now : ℚ}
    {acc : List (Nat × RecordV2) × List (Nat × ExportEntryV2)}
    (h : recsWF now acc.1) (pid : Nat) :
    recsWF now (exportStep trk thr minT now acc pid).1 := by
  cases hl : List.lookup pid acc.1 with
  | none => simpa [exportStep, hl] using h
  | some d =>
    intro kv hkv
    simp only [exportStep, hl, List.mem_map] at hkv
    obtain ⟨kv0, hkv0, rfl⟩ := hkv
    by_cases hk : kv0.1 = pid
    · simpa [hk] using exportUpdateRec_recWF (h kv0 hkv0)
    · simpa [hk] using h kv0 hkv0

theorem foldl_exportStep_recsWF {trk : Bool} {thr minT now : ℚ} :
    ∀ (ps : List Nat) (acc : List (Nat × RecordV2) × List (Nat × ExportEntryV2)),
      recsWF now acc.1 →
      recsWF now ((ps.foldl (exportStep trk thr minT now) acc)).1 := by
  intro ps
  induction ps with
  | nil => exact fun acc h => h
  | cons p rest ih => exact fun acc h => ih _ (exportStep_recsWF h p)

theorem domAdd_recsWF {t now : ℚ} (ht : t ≤ now) {s : TrackerState} {id : Nat}
    (h : recsWF t s.records) : recsWF now (domAdd s id now).records := by
  intro kv hkv
  simp only [domAdd, List.mem_append, List.mem_singleton] at hkv
  rcases hkv with hkv | hkv
  · exact recWF_mono ht (h kv hkv)
  · subst hkv
    refine ⟨le_refl 0, by norm_num, le_refl 0, le_refl 0, fun u hu => ?_⟩
    by_cases htr : s.isTracking = true
    · simp only [htr, if_true] at hu
      simp at hu
      simp [hu]
    · simp only [htr, if_false] at hu
      simp at hu

theorem domRemove_recsWF {t : ℚ} {s : TrackerState} {id : Nat}
    (h : recsWF t s.records) : recsWF t (domRemove s id).records := by
  unfold domRemove
  split
  · intro kv hkv
    exact h kv (List.Sublist.mem hkv (List.eraseP_sublist _))
  · exact h

theorem startTracking_recsWF {t now : ℚ} (ht : t ≤ now) {s : TrackerState}
    (h : recsWF t s.records) : recsWF now (startTracking s now).records := by
  unfold startTracking
  split
  · exact recsWF_mono ht h
  · rw [trackingFrame_records]
    exact stampAll_recsWF ht h

theorem step_recsWF {t : ℚ} {s : TrackerState} {e : Event}
    (h : recsWF t s.records) (he : eventOK t e = true) :
    recsWF (nextT t e) (step s e).records := by
  cases e with
  | intersect entries now =>
    simp only [eventOK, Bool.and_eq_true, decide_eq_true_eq] at he
    exact handleIntersection_recsWF h he.1 he.2
  | visChange v now =>
    simp only [eventOK, decide_eq_true_eq] at he
    show recsWF now (handleVisibilityChange s v now).records
    unfold handleVisibilityChange
    split
    · exact stampAll_recsWF he h
    · exact recsWF_mono he h
  | start now =>
    simp only [eventOK, decide_eq_true_eq] at he
    exact startTracking_recsWF he h
  | stop =>
    show recsWF t (stopTracking s).records
    rw [stopTracking_records]
    exact h
  | frame now =>
    simp only [eventOK, decide_eq_true_eq] at he
    show recsWF now (trackingFrame s now).records
    rw [trackingFrame_records]
    exact recsWF_mono he h
  | exportD now =>
    simp only [eventOK, decide_eq_true_eq] at he
    exact foldl_exportStep_recsWF s.paragraphs (s.records, []) (recsWF_mono he h)
  | domAdd id now =>
    simp only [eventOK, decide_eq_true_eq] at he
    exact domAdd_recsWF he h
  | domRemove id =>
    exact domRemove_recsWF h

theorem run_recsWF : ∀ (es : List Event) (s : TrackerState) (t : ℚ),
    recsWF t s.records → traceOK t es = true →
    recsWF (finalT t es) (run s es).records := by
  intro es
  induction es with
  | nil => exact fun s t h _ => h
  | cons e rest ih =>
    intro s t h hok
    simp only [traceOK, Bool.and_eq_true] at hok
    exact ih _ _ (step_recsWF h hok.1) hok.2

theorem initState_recsWF (opts : Options) (ids : List Nat) (t : ℚ) :
    recsWF t (initState opts ids).records := by
  intro kv hkv
  simp only [initState, List.mem_map] at hkv
  obtain ⟨i, _, rfl⟩ := hkv
  exact ⟨le_refl 0, by norm_num [initRecord], le_refl 0, le_refl 0,
    fun u hu => by simp [initRecord] at hu⟩

theorem contains_of_mem {l : List Nat} {a : Nat} (h : a ∈ l) : l.contains a = true := by
  simpa using h

theorem mem_of_contains {l : List Nat} {a : Nat} (h : l.contains a = true) : a ∈ l := by
  simpa using h

theorem stampAll_times (recs : List (Nat × RecordV2)) (paras : List Nat) (now : ℚ) :
    (stampAll recs paras now).map (fun kv => (kv.1, kv.2.timeSpent))
      = recs.map (fun kv => (kv.1, kv.2.timeSpent)) := by
  rw [stampAll_eq_map, List.map_map]
  apply List.map_congr_left
  intro kv _
  simp only [Function.comp, stampIf]
  split <;> rfl

theorem stampAll_stamped {recs : List (Nat × RecordV2)} {paras : List Nat} {now : ℚ} :
    ∀ kv ∈ stampAll recs paras now, kv.1 ∈ paras → kv.2.lastUpdate = some now := by
  rw [stampAll_eq_map]
  intro kv hkv hp
  simp only [List.mem_map] at hkv
  obtain ⟨kv0, hkv0, rfl⟩ := hkv
  have hfst : (stampIf paras now kv0).1 = kv0.1 := by
    unfold stampIf
    split <;> rfl
  rw [hfst] at hp
  unfold stampIf
  rw [if_pos (contains_of_mem hp)]

theorem applyEntry_times_not_tracking {s : TrackerState} {e : IEntry} {now : ℚ}
    (h : s.isTracking = false) :
    (applyEntry s e now).records.map (fun kv => (kv.1, kv.2.timeSpent))
      = s.records.map (fun kv => (kv.1, kv.2.timeSpent)) := by
  cases hl : List.lookup e.id s.records with
  | none => simp [applyEntry, hl]
  | some d =>
    simp only [applyEntry, hl, List.map_map]
    apply List.map_congr_left
    intro kv _
    by_cases hk : kv.1 = e.id
    · simp [Function.comp, hk, h, updateRecM_timeSpent_not_tracking]
    · simp [Function.comp, hk]

theorem applyEntry_times_not_inView {s : TrackerState} {e : IEntry} {now : ℚ}
    (h : e.isIntersecting = false) :
    (applyEntry s e now).records.map (fun kv => (kv.1, kv.2.timeSpent))
      = s.records.map (fun kv => (kv.1, kv.2.timeSpent)) := by
  cases hl : List.lookup e.id s.records with
  | none => simp [applyEntry, hl]
  | some d =>
    simp only [applyEntry, hl, List.map_map]
    apply List.map_congr_left
    intro kv _
    by_cases hk : kv.1 = e.id
    · simp [Function.comp, hk, updateRecM_timeSpent_not_inView _ _ _ _ _ h]
    · simp [Function.comp, hk]

theorem foldl_applyEntry_times_not_tracking {now : ℚ} :
    ∀ (entries : List IEntry) (s : TrackerState), s.isTracking = false →
      ((entries.foldl (fun acc e => applyEntry acc e now) s)).records.map
          (fun kv => (kv.1, kv.2.timeSpent))
        = s.records.map (fun kv => (kv.1, kv.2.timeSpent)) := by
  intro entries
  induction entries with
  | nil => exact fun s _ => rfl
  | cons e rest ih =>
    intro s h
    have h2 : (applyEntry s e now).isTracking = false := by
      rw [applyEntry_isTracking]; exact h
    show ((rest.foldl (fun acc e => applyEntry acc e now) (applyEntry s e now))).records.map
        (fun kv => (kv.1, kv.2.timeSpent)) = _
    rw [ih _ h2, applyEntry_times_not_tracking h]

theorem lookup_eq_none_of_keys_ne {id : Nat} {l : List (Nat × RecordV2)}
    (h : ∀ kv ∈ l, kv.1 ≠ id) : List.lookup id l = none := by
  rw [List.lookup_eq_none_iff]
  intro p hp
  simpa using Ne.symm (h p hp)

theorem lookup_eraseP_self {id : Nat} :
    ∀ {l : List (Nat × RecordV2)}, ((l.map Prod.fst).Nodup) →
      List.lookup id (l.eraseP (fun kv => kv.1 == id)) = none := by
  intro l
  induction l with
  | nil => intro _; rfl
  | cons hd tl ih =>
    intro hnd
    obtain ⟨k1, v1⟩ := hd
    simp only [List.map_cons, List.nodup_cons] at hnd
    by_cases hk : k1 = id
    · subst hk
      simp only [List.eraseP_cons, beq_self_eq_true, cond_true]
      apply lookup_eq_none_of_keys_ne
      intro kv hkv hbad
      exact hnd.1 (hbad ▸ List.mem_map_of_mem Prod.fst hkv)
    · have hb2 : ((k1, v1).1 == id) = false := by simp [hk]
      simp only [List.eraseP_cons, hb2, cond_false]
      rw [List.lookup_cons]
      have hb : (id == k1) = false := by simp [Ne.symm hk]
      simp only [hb]
      exact ih hnd.2

theorem jsMaxList_cons_isSome (a : ℚ) (b : List ℚ) : (jsMaxList (a :: b)).isSome = true := by
  simp only [jsMaxList]
  cases jsMaxList b <;> rfl

theorem jsMaxList_mem : ∀ {l : List ℚ} {m : ℚ}, jsMaxList l = some m → m ∈ l := by
  intro l
  induction l with
  | nil => intro m h; simp [jsMaxList] at h
  | cons q rest ih =>
    intro m h
    rw [List.mem_cons]
    cases hr : jsMaxList rest with
    | none =>
      simp only [jsMaxList, hr] at h
      exact Or.inl (Option.some.inj h).symm
    | some m2 =>
      simp only [jsMaxList, hr] at h
      have hm : max q m2 = m := Option.some.inj h
      rcases max_choice q m2 with hc | hc
      · exact Or.inl (by rw [← hm, hc])
      · right
        rw [← hm, hc]
        exact ih hr

theorem le_jsMaxList : ∀ {l : List ℚ} {m : ℚ}, jsMaxList l = some m → ∀ x ∈ l, x ≤ m := by
  intro l
  induction l with
  | nil => intro m _ x hx; simp at hx
  | cons q rest ih =>
    intro m h x hx
    rw [List.mem_cons] at hx
    cases hr : jsMaxList rest with
    | none =>
      have hrest : rest = [] := by
        cases rest with
        | nil => rfl
        | cons a b =>
          have hs := jsMaxList_cons_isSome a b
          rw [hr] at hs
          simp at hs
      subst hrest
      simp only [jsMaxList] at h
      have hm : q = m := Option.some.inj h
      rcases hx with hx | hx
      · rw [hx, ← hm]
      · simp at hx
    | some m2 =>
      simp only [jsMaxList, hr] at h
      have hm : max q m2 = m := Option.some.inj h
      rcases hx with hx | hx
      · rw [hx, ← hm]
        exact le_max_left q m2
      · calc x ≤ m2 := ih hr x hx
          _ ≤ m := by rw [← hm]; exact le_max_right q m2

theorem jsMaxList_eq_none : ∀ {l : List ℚ}, jsMaxList l = none → l = [] := by
  intro l h
  cases l with
  | nil => rfl
  | cons a b =>
    have hs := jsMaxList_cons_isSome a b
    rw [h] at hs
    simp at hs

/-! ## Claim results -/

/-- C4: for every record of every state of the V2 engine reachable from
initialization by a valid trace (monotone clock, reported ratios in
`[0, 1]`) of intersection reports, tab-visibility changes, tracking
start/stop, animation-frame ticks, exports and DOM mutations,
`weightedTime ≤ timeSpent` holds. -/
theorem C4_weightedTime_le_timeSpent (opts : Options) (ids : List Nat) (t0 : ℚ)
    (es : List Event) (hok : traceOK t0 es = true) :
    ∀ kv ∈ (run (initState opts ids) es).records,
      kv.2.weightedTime ≤ kv.2.timeSpent := by
  intro kv hkv
  exact ((run_recsWF es (initState opts ids) t0
    (initState_recsWF opts ids t0) hok) kv hkv).2.2.2.1

/-- Witness for C4 at a concrete valid trace over two elements. -/
theorem C4_weightedTime_le_timeSpent_witness :
    traceOK 0 demoTrace = true ∧
      ∀ kv ∈ (run (initState intOpts [0, 1]) demoTrace).records,
        kv.2.weightedTime ≤ kv.2.timeSpent :=
  ⟨by decide, C4_weightedTime_le_timeSpent intOpts [0, 1] 0 demoTrace (by decide)⟩

/-- C2 counterexample: V2 `stopTracking` performs no final flush.  In a
tracking state with a record still in view and an open interval since
`t = 5`, stopping leaves the record byte-for-byte unchanged: nothing is
credited, `inView` stays true and `lastUpdate` stays `some 5` — contrary
to the claimed credit of `now - lastUpdate`, forced `inView := false`
and cleared `lastUpdate`. -/
theorem C2_stopTracking_v2_no_flush :
    stopStateV2.isTracking = true
    ∧ (List.lookup 0 stopStateV2.records).map RecordV2.inView = some true
    ∧ (List.lookup 0 stopStateV2.records).map RecordV2.lastUpdate = some (some 5)
    ∧ (stopTracking stopStateV2).isTracking = false
    ∧ (stopTracking stopStateV2).records = stopStateV2.records := by
  refine ⟨rfl, rfl, rfl, by decide, by decide⟩

/-- C2 (amended): V2 `stopTracking` only clears the tracking flag and
never touches any record, while V1 `stopTracking` performs the claimed
final flush — a record in view with a truthy `lastViewTimestamp` is
credited `now - lastViewTimestamp`, its timestamp cleared and `inView`
forced false — so that after V1 `stopTracking` on a tracking engine no
record retains an open interval. -/
theorem C2_stop_behaviour :
    (∀ s : TrackerState, (stopTracking s).records = s.records
        ∧ (stopTracking s).isTracking = false)
    ∧ (∀ (d : RecordV1) (t now : ℚ), d.inView = true → d.lastViewTimestamp = some t →
        t ≠ 0 →
        (stopFlushRec now d).timeSpent = d.timeSpent + (now - t)
        ∧ (stopFlushRec now d).inView = false
        ∧ (stopFlushRec now d).lastViewTimestamp = none)
    ∧ (∀ (st : V1State) (now : ℚ), st.isTracking = true →
        ∀ kv ∈ (stopTrackingV1 st now).recs,
          (kv.2.inView && otruthy kv.2.lastViewTimestamp) = false) := by
  refine ⟨?_, ?_, ?_⟩
  · intro s
    refine ⟨stopTracking_records s, ?_⟩
    unfold stopTracking
    split
    · assumption
    · rfl
  · intro d t now h1 h2 h3
    obtain ⟨ts, iv, lvt, idx⟩ := d
    simp only at h1 h2
    subst h1
    subst h2
    refine ⟨?_, ?_, ?_⟩ <;> simp [stopFlushRec, h3]
  · intro st now h kv hkv
    unfold stopTrackingV1 at hkv
    rw [if_neg (by simp [h])] at hkv
    simp only [List.mem_map] at hkv
    obtain ⟨kv0, hkv0, rfl⟩ := hkv
    obtain ⟨ts, iv, lvt, idx⟩ := kv0.2
    cases lvt with
    | none => simp [stopFlushRec, otruthy]
    | some t =>
      by_cases hc : (iv && decide (t ≠ 0)) = true
      · have hif : iv = true ∧ ¬t = 0 := by
          simp only [Bool.and_eq_true, decide_eq_true_eq] at hc
          exact hc
        simp [stopFlushRec, hif]
      · have hif : ¬(iv = true ∧ ¬t = 0) := by
          simp only [Bool.and_eq_true, decide_eq_true_eq] at hc
          exact hc
        simp only [stopFlushRec]
        rw [if_neg (by simpa using hif)]
        show (iv && otruthy (some t)) = false
        by_cases hiv : iv = true
        · have ht0 : t = 0 := by
            by_contra hne
            exact hif ⟨hiv, hne⟩
          simp [otruthy, hiv, ht0]
        · simp [Bool.eq_false_iff.mpr hiv]

/-- Witness for C2 at concrete V1 and V2 states. -/
theorem C2_stop_behaviour_witness :
    ((stopTracking stopStateV2).records = stopStateV2.records
      ∧ (stopTracking stopStateV2).isTracking = false)
    ∧ ((stopFlushRec 9 v1Rec).timeSpent = v1Rec.timeSpent + (9 - 2)
      ∧ (stopFlushRec 9 v1Rec).inView = false
      ∧ (stopFlushRec 9 v1Rec).lastViewTimestamp = none)
    ∧ ∀ kv ∈ (stopTrackingV1 v1StateA 9).recs,
        (kv.2.inView && otruthy kv.2.lastViewTimestamp) = false :=
  ⟨C2_stop_behaviour.1 stopStateV2,
   C2_stop_behaviour.2.1 v1Rec 2 9 rfl rfl (by norm_num),
   C2_stop_behaviour.2.2 v1StateA 9 rfl⟩

/-- C5 counterexample: after removing element `0`, whose `timeSpent = 10`
was the running maximum, the record and the tracked-set entry are gone,
but `maxEngagement` still holds the destroyed record's value `10`; the
heatmap intensity of the surviving element `1` (`timeSpent = 2`) is
computed as `2 / 10 = 1/5` against the stale maximum instead of being
normalized against the remaining records. -/
theorem C5_stale_max_after_remove :
    (List.lookup 0 removeState.records).map RecordV2.timeSpent = some 10
    ∧ removeState.maxEngagement = 10
    ∧ List.lookup 0 (domRemove removeState 0).records = none
    ∧ 0 ∉ (domRemove removeState 0).paragraphs
    ∧ (domRemove removeState 0).maxEngagement = 10
    ∧ heatmapIntensity (domRemove removeState 0) 1 = 1 / 5
    ∧ heatmapIntensity (domRemove removeState 0) 1 ≠ 1 := by
  refine ⟨rfl, rfl, by decide, by decide, by decide, ?_, ?_⟩
  · norm_num [heatmapIntensity, domRemove, removeState, fullRec, intOpts, List.lookup]
  · norm_num [heatmapIntensity, domRemove, removeState, fullRec, intOpts, List.lookup]

/-- C5 (amended): removing a tracked element deletes its record and its
tracked-set entry, but `maxEngagement` is never recomputed — it keeps
its previous running value (the destroyed record's `timeSpent` when that
record held the maximum), and subsequent heatmap intensities divide by
that stale maximum. -/
theorem C5_remove_semantics :
    (∀ (s : TrackerState) (id : Nat), (domRemove s id).maxEngagement = s.maxEngagement)
    ∧ (∀ (s : TrackerState) (id : Nat), id ∈ s.paragraphs →
        (s.records.map Prod.fst).Nodup →
        List.lookup id (domRemove s id).records = none)
    ∧ (∀ (s : TrackerState) (id : Nat), s.paragraphs.Nodup →
        id ∉ (domRemove s id).paragraphs) := by
  refine ⟨?_, ?_, ?_⟩
  · intro s id
    unfold domRemove
    split <;> rfl
  · intro s id hmem hnd
    unfold domRemove
    rw [if_pos (contains_of_mem hmem)]
    exact lookup_eraseP_self hnd
  · intro s id hnd
    unfold domRemove
    by_cases hc : s.paragraphs.contains id = true
    · rw [if_pos hc]
      exact List.Nodup.not_mem_erase hnd
    · rw [if_neg hc]
      exact fun hmem => hc (contains_of_mem hmem)

/-- Witness for C5 at the concrete two-element state. -/
theorem C5_remove_semantics_witness :
    (domRemove removeState 0).maxEngagement = removeState.maxEngagement
    ∧ List.lookup 0 (domRemove removeState 0).records = none
    ∧ 0 ∉ (domRemove removeState 0).paragraphs :=
  ⟨C5_remove_semantics.1 removeState 0,
   C5_remove_semantics.2.1 removeState 0 (by decide) (by decide),
   C5_remove_semantics.2.2 removeState 0 (by decide)⟩

/-- C7: evaluation at the failing input.  `this.lastFrameTime` is never
assigned in the source, so every `trackingFrame` tick computes a `NaN`
batch size: the `processBatch` loop body runs zero times (no record is
ever credited by the frame-batched strategy) and `lastProcessedIndex`
is poisoned to `NaN` — the claimed adaptive batch and round-robin
rotation never happen. -/
theorem C7_trackingFrame_processes_nothing :
    (trackingFrame frameState 5).records = frameState.records
    ∧ (trackingFrame frameState 5).lastProcessedIndex = none
    ∧ (trackingFrame (trackingFrame frameState 5) 6).records = frameState.records
    ∧ ∀ (s : TrackerState) (now : ℚ), (trackingFrame s now).records = s.records := by
  refine ⟨trackingFrame_records frameState 5, by decide, ?_, fun s now => trackingFrame_records s now⟩
  rw [trackingFrame_records, trackingFrame_records]

/-- C10: V2 `destroy` never propagates an exception: whatever teardown
step raises, the `catch` converts it into an `error` event and the
caller sees no exception; when no step raises, the `destroyed` event is
emitted. -/
theorem C10_destroy_no_throw :
    (∀ fault : String → Option String, (destroy fault).2 = none)
    ∧ (∀ fault : String → Option String,
        runTeardown fault destroySteps = Except.ok () → (destroy fault).1 = ["destroyed"])
    ∧ (∀ (fault : String → Option String) (e : String),
        runTeardown fault destroySteps = Except.error e → (destroy fault).1 = ["error"]) := by
  refine ⟨?_, ?_, ?_⟩
  · intro fault
    unfold destroy
    cases runTeardown fault destroySteps <;> rfl
  · intro fault h
    unfold destroy
    rw [h]
  · intro fault e h
    unfold destroy
    rw [h]

/-- Witness for C10: a fault-free teardown and a teardown whose observer
disconnect raises. -/
theorem C10_destroy_no_throw_witness :
    (destroy (fun _ => none)).2 = none
    ∧ (destroy (fun _ => none)).1 = ["destroyed"]
    ∧ (destroy (fun stp => if stp = "disconnectObserver" then some "boom" else none)).1
        = ["error"] :=
  ⟨C10_destroy_no_throw.1 _,
   C10_destroy_no_throw.2.1 _ rfl,
   C10_destroy_no_throw.2.2 _ "boom" rfl⟩

/-- C1 counterexample: the tab is hidden and tracking is on; the record
is physically in view (ratio 1) with an open interval since `t = 2`.
Calling `exportData` at `t = 9` — while still hidden — credits the whole
hidden gap `9 - 2 = 7` to `timeSpent`, although the claim says time
accrues only while the host document is in the foreground. -/
theorem C1_export_while_hidden_credits :
    hiddenExportState.tabVisible = false
    ∧ hiddenExportState.isTracking = true
    ∧ (List.lookup 0 hiddenExportState.records).map RecordV2.timeSpent = some 0
    ∧ (List.lookup 0 (exportDataV2 hiddenExportState 9).1.records).map RecordV2.timeSpent
        = some 7 := by
  refine ⟨rfl, rfl, rfl, ?_⟩
  norm_num [exportDataV2, exportStep, exportUpdateRec, hiddenExportState, fullRec,
    intOpts, List.lookup]

/-- C1 (amended): V2 accrual through intersection reports and
animation-frame ticks happens only while tracking is on, the tab is
visible and the record is in view, and regaining the foreground
re-stamps every tracked record's `lastUpdate` without crediting the
hidden gap; the exception is `exportData`, whose final update does not
check tab visibility (see the counterexample). -/
theorem C1_accrual_gating :
    (∀ (s : TrackerState) (entries : List IEntry) (now : ℚ),
        s.tabVisible = false → handleIntersection s entries now = s)
    ∧ (∀ (s : TrackerState) (now : ℚ),
        s.isTracking = false ∨ s.tabVisible = false → trackingFrame s now = s)
    ∧ (∀ (s : TrackerState) (entries : List IEntry) (now : ℚ), s.isTracking = false →
        (handleIntersection s entries now).records.map (fun kv => (kv.1, kv.2.timeSpent))
          = s.records.map (fun kv => (kv.1, kv.2.timeSpent)))
    ∧ (∀ (s : TrackerState) (e : IEntry) (now : ℚ), e.isIntersecting = false →
        (handleIntersection s [e] now).records.map (fun kv => (kv.1, kv.2.timeSpent))
          = s.records.map (fun kv => (kv.1, kv.2.timeSpent)))
    ∧ (∀ (s : TrackerState) (now : ℚ),
        (handleVisibilityChange s true now).records.map (fun kv => (kv.1, kv.2.timeSpent))
          = s.records.map (fun kv => (kv.1, kv.2.timeSpent))
        ∧ ∀ kv ∈ (handleVisibilityChange s true now).records,
            kv.1 ∈ s.paragraphs → kv.2.lastUpdate = some now) := by
  refine ⟨?_, ?_, ?_, ?_, ?_⟩
  · intro s entries now h
    unfold handleIntersection
    rw [if_pos h]
  · intro s now h
    unfold trackingFrame
    rw [if_pos h]
  · intro s entries now h
    unfold handleIntersection
    split
    · rfl
    · exact foldl_applyEntry_times_not_tracking entries s h
  · intro s e now h
    unfold handleIntersection
    split
    · rfl
    · show (applyEntry s e now).records.map _ = _
      exact applyEntry_times_not_inView h
  · intro s now
    constructor
    · show (stampAll s.records s.paragraphs now).map _ = _
      exact stampAll_times s.records s.paragraphs now
    · intro kv hkv hp
      exact stampAll_stamped kv hkv hp

/-- Witness for C1: hidden-tab reports are dropped, a stopped engine has
no frame work, and a foreground regain leaves every `timeSpent`
unchanged. -/
theorem C1_accrual_gating_witness :
    handleIntersection hiddenReportState [reportEntry] 9 = hiddenReportState
    ∧ trackingFrame (stopTracking frameState) 9 = stopTracking frameState
    ∧ (handleVisibilityChange exportTwiceState true 9).records.map
        (fun kv => (kv.1, kv.2.timeSpent))
        = exportTwiceState.records.map (fun kv => (kv.1, kv.2.timeSpent)) :=
  ⟨C1_accrual_gating.1 hiddenReportState [reportEntry] 9 rfl,
   C1_accrual_gating.2.1 (stopTracking frameState) 9 (Or.inl (by decide)),
   (C1_accrual_gating.2.2.2.2 exportTwiceState 9).1⟩

/-- C3 counterexample: `exportData` credits `now - lastUpdate` but does
not re-stamp `lastUpdate`.  Starting from an open interval at `t = 2`, a
single export at `t = 9` credits `7`; exporting at `t = 3` and then at
`t = 9` credits `1 + 7 = 8`, counting the span `[2, 3]` twice — the
export-time accrual step of the claim does not re-stamp and does
double-count. -/
theorem C3_export_no_restamp_double_counts :
    (List.lookup 0 exportTwiceState.records).map RecordV2.lastUpdate = some (some 2)
    ∧ (List.lookup 0 (exportDataV2 exportTwiceState 3).1.records).map RecordV2.lastUpdate
        = some (some 2)
    ∧ (List.lookup 0 (exportDataV2 exportTwiceState 9).1.records).map RecordV2.timeSpent
        = some 7
    ∧ (List.lookup 0 (exportDataV2 (exportDataV2 exportTwiceState 3).1 9).1.records).map
        RecordV2.timeSpent = some 8 := by
  refine ⟨rfl, ?_, ?_, ?_⟩ <;>
    norm_num [exportDataV2, exportStep, exportUpdateRec, exportTwiceState,
      hiddenExportState, fullRec, intOpts, List.lookup]

/-- C3 (amended): `lastUpdate` (V1: `lastViewTimestamp`) is re-stamped
on every interval tick, on every intersection-report update, on every
batch-processing update, on tracking start and on tab-visibility regain
— so consecutive ticks credit a span exactly once — but `exportData`
does not re-stamp (see the counterexample). -/
theorem C3_restamp_points :
    (∀ (d : RecordV1) (t0 t1 t2 : ℚ), d.inView = true → d.lastViewTimestamp = some t0 →
        t0 ≠ 0 → t1 ≠ 0 →
        (checkVisRec t2 (checkVisRec t1 d)).timeSpent = d.timeSpent + (t2 - t0)
        ∧ (checkVisRec t1 d).lastViewTimestamp = some t1)
    ∧ (∀ (trk : Bool) (maxE : ℚ) (e : IEntry) (now : ℚ) (d : RecordV2),
        ((updateRecM trk maxE e now d).1).lastUpdate = some now)
    ∧ (∀ (thr maxE now : ℚ) (d : RecordV2),
        ((batchUpdateRec thr maxE now d).1).lastUpdate = some now)
    ∧ (∀ (s : TrackerState) (now : ℚ), s.isTracking = false →
        ∀ kv ∈ (startTracking s now).records, kv.1 ∈ s.paragraphs →
          kv.2.lastUpdate = some now)
    ∧ (∀ (s : TrackerState) (now : ℚ),
        ∀ kv ∈ (handleVisibilityChange s true now).records, kv.1 ∈ s.paragraphs →
          kv.2.lastUpdate = some now) := by
  refine ⟨?_, updateRecM_lastUpdate, batchUpdateRec_lastUpdate, ?_, ?_⟩
  · intro d t0 t1 t2 h1 h2 h3 h4
    obtain ⟨ts, iv, lvt, idx⟩ := d
    simp only at h1 h2
    subst h1
    subst h2
    constructor
    · simp [checkVisRec, h3, h4]
      ring
    · simp [checkVisRec, h3]
  · intro s now h kv hkv hp
    unfold startTracking at hkv
    rw [if_neg (by simp [h])] at hkv
    rw [trackingFrame_records] at hkv
    exact stampAll_stamped kv hkv hp
  · intro s now kv hkv hp
    exact stampAll_stamped kv hkv hp

/-- Witness for C3: two consecutive V1 ticks over `[2, 9]` credit
exactly `7`, and a tracking start stamps the fresh records. -/
theorem C3_restamp_points_witness :
    ((checkVisRec 9 (checkVisRec 3 v1Rec)).timeSpent = v1Rec.timeSpent + (9 - 2)
      ∧ (checkVisRec 3 v1Rec).lastViewTimestamp = some 3)
    ∧ ∀ kv ∈ (startTracking (initState intOpts [0]) 5).records, kv.1 ∈ [0] →
        kv.2.lastUpdate = some 5 :=
  ⟨C3_restamp_points.1 v1Rec 2 3 9 rfl rfl (by norm_num) (by norm_num),
   C3_restamp_points.2.2.2.1 (initState intOpts [0]) 5 rfl⟩

/-- C8 counterexample: a visibility report delivered while the tab is
hidden is ignored entirely — the record's `visibleRatio` stays `0`
although the report carried ratio `1`. -/
theorem C8_hidden_report_ignored :
    hiddenReportState.tabVisible = false
    ∧ reportEntry.ratio = 1
    ∧ (List.lookup 0 hiddenReportState.records).map RecordV2.visibleRatio = some 0
    ∧ handleIntersection hiddenReportState [reportEntry] 9 = hiddenReportState := by
  refine ⟨rfl, rfl, rfl, by decide⟩

/-- C8 (amended): every visibility report delivered for a tracked
element while the tab is visible updates that record's `visibleRatio` to
the reported intersection ratio, regardless of the threshold or of any
`inView` change. -/
theorem C8_report_updates_ratio (s : TrackerState) (e : IEntry) (now : ℚ) (d : RecordV2)
    (ht : s.tabVisible = true) (hd : List.lookup e.id s.records = some d) :
    (List.lookup e.id (handleIntersection s [e] now).records).map RecordV2.visibleRatio
      = some e.ratio := by
  unfold handleIntersection
  rw [if_neg (by simp [ht])]
  show (List.lookup e.id (applyEntry s e now).records).map RecordV2.visibleRatio = _
  simp only [applyEntry, hd]
  rw [lookup_map_keyed e.id
    (fun d2 => (updateRecM s.isTracking s.maxEngagement e now d2).1) s.records, hd]
  simp [updateRecM_visibleRatio]

/-- Witness for C8: a full-visibility report on a fresh record (stored
ratio `0`) results in stored ratio `1`. -/
theorem C8_report_updates_ratio_witness :
    (List.lookup 0 (handleIntersection visibleReportState [reportEntry] 9).records).map
        RecordV2.visibleRatio = some 1 :=
  C8_report_updates_ratio visibleReportState reportEntry 9 initRecord rfl rfl

theorem exportBaseV1_times (recs : List (String × RecordV1)) :
    (exportBaseV1 recs).map (fun kv => kv.2.timeSpent)
      = recs.map (fun kv => kv.2.timeSpent) := by
  unfold exportBaseV1
  rw [List.map_map]
  rfl

theorem mem_exportBaseV1 {recs : List (String × RecordV1)} {ekv : String × ExportEntryV1}
    (h : ekv ∈ exportBaseV1 recs) :
    ekv.2.normalizedEngagement = 0 ∧ ∃ kv ∈ recs, ekv.2.timeSpent = kv.2.timeSpent := by
  unfold exportBaseV1 at h
  simp only [List.mem_map] at h
  obtain ⟨kv, hkv, rfl⟩ := h
  exact ⟨rfl, kv, hkv, rfl⟩

/-- C6 counterexample: V1 export entries carry a `normalizedEngagement`
field, V2 export entries do not — the V2 exported data does not contain
`normalizedEngagement` at all. -/
theorem C6_v2_export_lacks_normalized :
    ("normalizedEngagement" ∈ exportV1Fields) ∧ "normalizedEngagement" ∉ exportV2Fields := by
  constructor
  · decide
  · decide

/-- C6 (amended): V1 `exportData` satisfies the claimed normalization —
with nonnegative accumulated times, every exported
`normalizedEngagement` lies in `[0, 1]`, an entry holding the positive
maximum gets exactly `1`, and when the maximum is not positive every
entry gets `0`; V2 `exportData` omits the field entirely (see the
counterexample). -/
theorem C6_v1_normalization (recs : List (String × RecordV1))
    (hpos : ∀ kv ∈ recs, 0 ≤ kv.2.timeSpent) :
    ∀ ekv ∈ exportDataV1 recs,
      0 ≤ ekv.2.normalizedEngagement ∧ ekv.2.normalizedEngagement ≤ 1
      ∧ (jsMaxList (recs.map (fun kv => kv.2.timeSpent)) = some ekv.2.timeSpent →
          0 < ekv.2.timeSpent → ekv.2.normalizedEngagement = 1) := by
  intro ekv hekv
  unfold exportDataV1 at hekv
  rw [exportBaseV1_times recs] at hekv
  cases hm : jsMaxList (recs.map fun kv => kv.2.timeSpent) with
  | none =>
    rw [hm] at hekv
    obtain ⟨hz, _⟩ := mem_exportBaseV1 hekv
    refine ⟨by rw [hz], by rw [hz]; norm_num, fun hmax _ => ?_⟩
    simp at hmax
  | some m =>
    rw [hm] at hekv
    have hekv2 : ekv ∈ (if 0 < m then
        (exportBaseV1 recs).map
          (fun kv => (kv.1, { kv.2 with normalizedEngagement := kv.2.timeSpent / m }))
      else exportBaseV1 recs) := hekv
    clear hekv
    by_cases h0 : 0 < m
    · rw [if_pos h0] at hekv2
      simp only [List.mem_map] at hekv2
      obtain ⟨bkv, hbkv, rfl⟩ := hekv2
      obtain ⟨_, kv, hkv, hts⟩ := mem_exportBaseV1 hbkv
      have htsL : bkv.2.timeSpent ∈ recs.map (fun kv => kv.2.timeSpent) := by
        rw [hts]
        exact List.mem_map_of_mem _ hkv
      have hb0 : 0 ≤ bkv.2.timeSpent := by
        rw [hts]
        exact hpos kv hkv
      have hle : bkv.2.timeSpent ≤ m := le_jsMaxList hm _ htsL
      refine ⟨div_nonneg hb0 (le_of_lt h0), (div_le_one h0).mpr hle, fun hmax hp => ?_⟩
      have hmm : m = bkv.2.timeSpent := Option.some.inj hmax
      show bkv.2.timeSpent / m = 1
      rw [← hmm]
      exact div_self (ne_of_gt h0)
    · rw [if_neg h0] at hekv2
      obtain ⟨hz, _⟩ := mem_exportBaseV1 hekv2
      refine ⟨by rw [hz], by rw [hz]; norm_num, fun hmax hp => ?_⟩
      have hmm : m = ekv.2.timeSpent := Option.some.inj hmax
      exact absurd (hmm ▸ hp) h0

/-- Witness for C6 at the specification scenario (1000 and 4000). -/
theorem C6_v1_normalization_witness :
    (∀ kv ∈ v1RecsExport, 0 ≤ kv.2.timeSpent)
    ∧ ∀ ekv ∈ exportDataV1 v1RecsExport,
        0 ≤ ekv.2.normalizedEngagement ∧ ekv.2.normalizedEngagement ≤ 1
        ∧ (jsMaxList (v1RecsExport.map (fun kv => kv.2.timeSpent)) = some ekv.2.timeSpent →
            0 < ekv.2.timeSpent → ekv.2.normalizedEngagement = 1) :=
  ⟨by decide, C6_v1_normalization v1RecsExport (by decide)⟩

/-- C9 counterexample: a falsy wrong-shaped value for the object-typed
`colors` option — here the number `0` — passes `validateOptions`
unrejected and the V2 constructor succeeds; the V1 constructor accepts
the out-of-range `samplingRate = 5` (its guard only rejects negative
values).  The claim that construction fails for every wrong-shaped or
out-of-range option is therefore false. -/
theorem C9_falsy_colors_accepted :
    (validateOptionsV2 [("colors", JSValue.num 0)]).isOk = true
    ∧ (newHighlightTrackerV2 [("colors", JSValue.num 0)] [0]).isOk = true
    ∧ constructorV1Throws none (some 5) = false := by
  refine ⟨?_, ?_, ?_⟩
  · norm_num [validateOptionsV2, v2Schema, validateKey, minViol, maxViol, typeofJS,
      Except.isOk, Except.toBool, nullishJS, truthyJS, isNullJS, List.lookup,
      (show ("minTimeThreshold" == "colors") = false by decide),
      (show ("samplingRate" == "colors") = false by decide),
      (show ("visibilityThreshold" == "colors") = false by decide),
      (show ("heatmapContainer" == "colors") = false by decide),
      (show "number" ≠ "object" by decide), (show "string" ≠ "object" by decide),
      (show "string" ≠ "number" by decide)]
  · norm_num [newHighlightTrackerV2, validateOptionsV2, v2Schema, validateKey, minViol,
      maxViol, typeofJS, Except.isOk, Except.toBool, nullishJS, truthyJS, isNullJS,
      List.lookup,
      (show ("minTimeThreshold" == "colors") = false by decide),
      (show ("samplingRate" == "colors") = false by decide),
      (show ("visibilityThreshold" == "colors") = false by decide),
      (show ("heatmapContainer" == "colors") = false by decide),
      (show "number" ≠ "object" by decide), (show "string" ≠ "object" by decide),
      (show "string" ≠ "number" by decide)]
  · norm_num [constructorV1Throws, otruthy]

/-- C9 (amended): V2 `validateOptions` rejects, each with its own
distinct error, a negative `minTimeThreshold`, a `samplingRate` outside
`[10, 1000]`, a `visibilityThreshold` outside `[0, 1]`, a wrong-typed
primitive value and a truthy non-object `colors`; a validation error
means the constructor produces no engine.  (A falsy wrong-shaped
`colors` is the exception — see the counterexample.) -/
theorem C9_validation :
    (∀ q : ℚ, q < 0 → validateOptionsV2 [("minTimeThreshold", JSValue.num q)]
        = Except.error (ConfigError.rangeLow "minTimeThreshold" 0))
    ∧ (∀ q : ℚ, q < 10 → validateOptionsV2 [("samplingRate", JSValue.num q)]
        = Except.error (ConfigError.rangeLow "samplingRate" 10))
    ∧ (∀ q : ℚ, 1000 < q → validateOptionsV2 [("samplingRate", JSValue.num q)]
        = Except.error (ConfigError.rangeHigh "samplingRate" 1000))
    ∧ (∀ q : ℚ, q < 0 → validateOptionsV2 [("visibilityThreshold", JSValue.num q)]
        = Except.error (ConfigError.rangeLow "visibilityThreshold" 0))
    ∧ (∀ q : ℚ, 1 < q → validateOptionsV2 [("visibilityThreshold", JSValue.num q)]
        = Except.error (ConfigError.rangeHigh "visibilityThreshold" 1))
    ∧ (∀ sv : String, validateOptionsV2 [("samplingRate", JSValue.str sv)]
        = Except.error (ConfigError.typeErr "samplingRate" "number"))
    ∧ validateOptionsV2 [("colors", JSValue.str "blue")]
        = Except.error (ConfigError.typeErr "colors" "object")
    ∧ (∀ (input : List (String × JSValue)) (ids : List Nat),
        (validateOptionsV2 input).isOk = false →
        (newHighlightTrackerV2 input ids).isOk = false) := by
  refine ⟨?_, ?_, ?_, ?_, ?_, ?_, ?_, ?_⟩
  · intro q h
    norm_num [validateOptionsV2, v2Schema, validateKey, minViol, maxViol, typeofJS,
      nullishJS, truthyJS, isNullJS, List.lookup, h,
      (show "number" ≠ "object" by decide)]
  · intro q h
    norm_num [validateOptionsV2, v2Schema, validateKey, minViol, maxViol, typeofJS,
      nullishJS, truthyJS, isNullJS, List.lookup, h,
      (show ("minTimeThreshold" == "samplingRate") = false by decide),
      (show "number" ≠ "object" by decide)]
  · intro q h
    have h2 : ¬q < 10 := by linarith
    norm_num [validateOptionsV2, v2Schema, validateKey, minViol, maxViol, typeofJS,
      nullishJS, truthyJS, isNullJS, List.lookup, h, h2,
      (show ("minTimeThreshold" == "samplingRate") = false by decide),
      (show "number" ≠ "object" by decide)]
  · intro q h
    norm_num [validateOptionsV2, v2Schema, validateKey, minViol, maxViol, typeofJS,
      nullishJS, truthyJS, isNullJS, List.lookup, h,
      (show ("minTimeThreshold" == "visibilityThreshold") = false by decide),
      (show ("samplingRate" == "visibilityThreshold") = false by decide),
      (show "number" ≠ "object" by decide)]
  · intro q h
    have h2 : ¬q < 0 := by linarith
    norm_num [validateOptionsV2, v2Schema, validateKey, minViol, maxViol, typeofJS,
      nullishJS, truthyJS, isNullJS, List.lookup, h, h2,
      (show ("minTimeThreshold" == "visibilityThreshold") = false by decide),
      (show ("samplingRate" == "visibilityThreshold") = false by decide),
      (show "number" ≠ "object" by decide)]
  · intro sv
    norm_num [validateOptionsV2, v2Schema, validateKey, minViol, maxViol, typeofJS,
      nullishJS, truthyJS, isNullJS, List.lookup,
      (show ("minTimeThreshold" == "samplingRate") = false by decide),
      (show "number" ≠ "object" by decide), (show "string" ≠ "object" by decide),
      (show "string" ≠ "number" by decide)]
  · norm_num [validateOptionsV2, v2Schema, validateKey, minViol, maxViol, typeofJS,
      nullishJS, truthyJS, isNullJS, List.lookup,
      (show ("minTimeThreshold" == "colors") = false by decide),
      (show ("samplingRate" == "colors") = false by decide),
      (show ("visibilityThreshold" == "colors") = false by decide),
      (show ("heatmapContainer" == "colors") = false by decide),
      (show "number" ≠ "object" by decide), (show "string" ≠ "object" by decide),
      (show "string" ≠ "number" by decide), (show "blue" ≠ "" by decide)]
  · intro input ids h
    unfold newHighlightTrackerV2
    cases hv : validateOptionsV2 input with
    | error e => rfl
    | ok opts =>
      rw [hv] at h
      simp [Except.isOk, Except.toBool] at h

/-- Witness for C9 at concrete inputs for each violation. -/
theorem C9_validation_witness :
    validateOptionsV2 [("minTimeThreshold", JSValue.num (-1))]
        = Except.error (ConfigError.rangeLow "minTimeThreshold" 0)
    ∧ validateOptionsV2 [("samplingRate", JSValue.num 5)]
        = Except.error (ConfigError.rangeLow "samplingRate" 10)
    ∧ validateOptionsV2 [("samplingRate", JSValue.num 2000)]
        = Except.error (ConfigError.rangeHigh "samplingRate" 1000)
    ∧ validateOptionsV2 [("visibilityThreshold", JSValue.num (-1))]
        = Except.error (ConfigError.rangeLow "visibilityThreshold" 0)
    ∧ validateOptionsV2 [("visibilityThreshold", JSValue.num 2)]
        = Except.error (ConfigError.rangeHigh "visibilityThreshold" 1)
    ∧ validateOptionsV2 [("samplingRate", JSValue.str "fast")]
        = Except.error (ConfigError.typeErr "samplingRate" "number")
    ∧ (newHighlightTrackerV2 [("samplingRate", JSValue.num 5)] [0]).isOk = false :=
  ⟨C9_validation.1 (-1) (by norm_num),
   C9_validation.2.1 5 (by norm_num),
   C9_validation.2.2.1 2000 (by norm_num),
   C9_validation.2.2.2.1 (-1) (by norm_num),
   C9_validation.2.2.2.2.1 2 (by norm_num),
   C9_validation.2.2.2.2.2.1 "fast",
   C9_validation.2.2.2.2.2.2.2 [("samplingRate", JSValue.num 5)] [0]
     (by rw [C9_validation.2.1 5 (by norm_num)]; rfl)⟩

end HT
